import Mathlib

/-!
Shallow embedding of the `pyrender` offscreen-rendering wrapper
(`mypyrender/offscreen.py`) and of the turntable driver script
(`render_360degree.py`), together with theorems settling the behavioural
claims about them.

Python dynamic values that flow through the numeric coercions `int(...)`
and `float(...)` are modelled by `PyVal` (floats as exact rationals);
Python exceptions by `PyErr`; the observable calls made on the backend
platform and on the scene renderer by traces of `Event`s.
-/

/-- A Python numeric value: either an `int` or a `float`
(floats modelled as exact rationals). -/
inductive PyVal where
  | int (n : Int)
  | float (q : Rat)
deriving DecidableEq, Repr

/-- Python `int(value)` on a numeric value: identity on ints,
truncation toward zero on floats. -/
def PyVal.toI : PyVal → Int
  | .int n => n
  | .float q => q.num / (q.den : Int)

/-- Python `float(value)` on a numeric value. -/
def PyVal.toF : PyVal → Rat
  | .int n => (n : Rat)
  | .float q => q

/-- Whether a `PyVal` is an `int` object. -/
def PyVal.isInt : PyVal → Bool
  | .int _ => true
  | .float _ => false

/-- Whether a `PyVal` is a `float` object. -/
def PyVal.isFloat : PyVal → Bool
  | .int _ => false
  | .float _ => true

/-- The decimal value of one digit character, if it is a digit. -/
def digitVal? (c : Char) : Option Nat :=
  if 48 ≤ c.toNat ∧ c.toNat ≤ 57 then some (c.toNat - 48) else none

/-- Accumulate a decimal digit string into a number; `none` on any
non-digit. -/
def digitsToNat? (cs : List Char) (acc : Nat) : Option Nat :=
  match cs with
  | [] => some acc
  | c :: rest =>
    match digitVal? c with
    | some d => digitsToNat? rest (acc * 10 + d)
    | none => none

/-- Python `int(string)` on the device-index string: an optional sign
followed by at least one decimal digit parses to that integer; any
other string raises `ValueError` (modelled as `none`). -/
def pyInt? (s : String) : Option Int :=
  match s.data with
  | [] => none
  | '-' :: cs =>
    if cs = [] then none else (digitsToNat? cs 0).map fun m => -(m : Int)
  | '+' :: cs =>
    if cs = [] then none else (digitsToNat? cs 0).map fun m => (m : Int)
  | cs => (digitsToNat? cs 0).map fun m => (m : Int)

/-- The Python exceptions the embedded code can raise. -/
inductive PyErr where
  | attributeError
  | valueError
  | assertionError
deriving DecidableEq, Repr

namespace RenderFlags

/-- Modelled from the spec: `mypyrender/constants.py` is not part of the
sources provided; the spec describes `RenderFlags` as a bitmask of
distinct renderer option bits, so each named flag is a distinct power of
two (the values used by the pyrender library family). -/
def NONE : Nat := 0

def DEPTH_ONLY : Nat := 1

def OFFSCREEN : Nat := 2

def FLIP_WIREFRAME : Nat := 4

def ALL_WIREFRAME : Nat := 8

def ALL_SOLID : Nat := 16

def SHADOWS_DIRECTIONAL : Nat := 32

def SHADOWS_POINT : Nat := 64

def SHADOWS_SPOT : Nat := 128

def VERTEX_NORMALS : Nat := 256

def FACE_NORMALS : Nat := 512

def SKIP_CULL_FACES : Nat := 1024

def RGBA : Nat := 2048

end RenderFlags

/-- The `render_flags` dictionary of `OffscreenRenderer`, with the keys
documented in `offscreen.py`. -/
structure RenderFlagsMap where
  flip_wireframe : Bool
  all_wireframe : Bool
  all_solid : Bool
  shadows : Bool
  vertex_normals : Bool
  face_normals : Bool
  cull_faces : Bool
  point_size : Rat
deriving DecidableEq, Repr

/-- The `_default_render_flags` dictionary built in
`OffscreenRenderer.__init__`. -/
def defaultRenderFlags : RenderFlagsMap :=
  { flip_wireframe := false
    all_wireframe := false
    all_solid := false
    shadows := false
    vertex_normals := false
    face_normals := false
    cull_faces := true
    point_size := 1 }

/-- A partial update of the render-flags dictionary: the `render_flags`
argument of `__init__` (a Python dict holding a subset of the keys) and
the recognised `**kwargs` entries are both of this shape. -/
structure RFUpdate where
  flip_wireframe : Option Bool := none
  all_wireframe : Option Bool := none
  all_solid : Option Bool := none
  shadows : Option Bool := none
  vertex_normals : Option Bool := none
  face_normals : Option Bool := none
  cull_faces : Option Bool := none
  point_size : Option Rat := none
deriving DecidableEq, Repr

/-- `dict.update`: keys present in the update overwrite the base map. -/
def RenderFlagsMap.update (rf : RenderFlagsMap) (u : RFUpdate) : RenderFlagsMap :=
  { flip_wireframe := u.flip_wireframe.getD rf.flip_wireframe
    all_wireframe := u.all_wireframe.getD rf.all_wireframe
    all_solid := u.all_solid.getD rf.all_solid
    shadows := u.shadows.getD rf.shadows
    vertex_normals := u.vertex_normals.getD rf.vertex_normals
    face_normals := u.face_normals.getD rf.face_normals
    cull_faces := u.cull_faces.getD rf.cull_faces
    point_size := u.point_size.getD rf.point_size }

/-- The flag-translation block of `OffscreenRenderer.render`
(offscreen.py lines 169-182): the stored boolean flags are or-ed into
the caller-supplied bitmask, the three wireframe/solid flags through an
`if`/`elif`/`elif` chain. -/
def translateFlags (rf : RenderFlagsMap) (flags : Nat) : Nat :=
  let f1 :=
    if rf.flip_wireframe then flags ||| RenderFlags.FLIP_WIREFRAME
    else if rf.all_wireframe then flags ||| RenderFlags.ALL_WIREFRAME
    else if rf.all_solid then flags ||| RenderFlags.ALL_SOLID
    else flags
  let f2 :=
    if rf.shadows then
      f1 ||| (RenderFlags.SHADOWS_DIRECTIONAL ||| RenderFlags.SHADOWS_SPOT)
    else f1
  let f3 := if rf.vertex_normals then f2 ||| RenderFlags.VERTEX_NORMALS else f2
  let f4 := if rf.face_normals then f3 ||| RenderFlags.FACE_NORMALS else f3
  if !rf.cull_faces then f4 ||| RenderFlags.SKIP_CULL_FACES else f4

/-- The kind of graphics backend selected by `_create`, with the
constructor arguments that distinguish the instances: the EGL backend
carries the device index passed to the indexed device lookup. -/
inductive PlatformKind where
  | pyglet
  | egl (device : Int)
  | osmesa
deriving DecidableEq, Repr

/-- A backend platform object as far as the wrapper observes it: its
kind, the viewport dimensions it was constructed with, and an identity
(fresh at each construction) that distinguishes recreated backends. -/
structure Platform where
  kind : PlatformKind
  viewport_width : Int
  viewport_height : Int
  id : Nat
deriving DecidableEq, Repr

/-- Modelled from the spec: the platform classes under
`mypyrender/platforms/` are not part of the sources provided; whether a
backend "supports dynamically-resizing framebuffers" is an attribute of
the backend kind, kept abstract as a boolean function. -/
structure GLConfig where
  fbSupport : PlatformKind → Bool

/-- Modelled from the spec: `mypyrender/renderer.py` is not part of the
sources provided; the wrapper observes a scene `Renderer` only through
its viewport dimensions and point size (which `render` overwrites), its
render/readback calls and its `delete` call. -/
structure Renderer where
  viewport_width : Int
  viewport_height : Int
  point_size : Rat
deriving DecidableEq, Repr

/-- The observable calls the wrapper makes on its platform and
renderer. -/
inductive Event where
  | makeCurrent (id : Nat)
  | rendererDelete
  | platformDeleteContext
  | initContext (id : Nat)
  | rendererRender (scene flags : Nat)
  | readDepth
  | readColor
deriving DecidableEq, Repr

/-- The state of an `OffscreenRenderer` object: the attributes set by
`__init__` and the setters, plus a counter supplying fresh platform
identities. -/
structure OState where
  _viewport_width : PyVal
  _viewport_height : PyVal
  _point_size : PyVal
  _render_flags : RenderFlagsMap
  _platform : Option Platform
  _renderer : Option Renderer
  nextId : Nat
deriving DecidableEq, Repr

namespace OffscreenRenderer

/-- The `viewport_width` property getter (the stored value, an int by
the setter's coercion). -/
def vwInt (s : OState) : Int := s._viewport_width.toI

/-- The `viewport_height` property getter. -/
def vhInt (s : OState) : Int := s._viewport_height.toI

/-- The `point_size` property getter. -/
def psRat (s : OState) : Rat := s._point_size.toF

/-- The `viewport_width` setter: `self._viewport_width = int(value)`. -/
def set_viewport_width (s : OState) (v : PyVal) : OState :=
  { s with _viewport_width := .int v.toI }

/-- The `viewport_height` setter: `self._viewport_height = int(value)`. -/
def set_viewport_height (s : OState) (v : PyVal) : OState :=
  { s with _viewport_height := .int v.toI }

/-- The `point_size` setter: `self._point_size = float(value)`. -/
def set_point_size (s : OState) (v : PyVal) : OState :=
  { s with _point_size := .float v.toF }

/-- The `render_flags` setter: stores the given mapping unchanged. -/
def set_render_flags (s : OState) (rf : RenderFlagsMap) : OState :=
  { s with _render_flags := rf }

/-- `OffscreenRenderer.delete`: calls `self._renderer.delete()` then
`self._platform.delete_context()`, then nulls both references.
Dereferencing a nulled reference raises `AttributeError`; the raise
happens before any attribute of `self` is mutated. The event list
records which release calls were made, in order. -/
def delete (s : OState) : Except PyErr OState × List Event :=
  match s._renderer with
  | none => (.error .attributeError, [])
  | some _ =>
    match s._platform with
    | none => (.error .attributeError, [.rendererDelete])
    | some _ =>
      (.ok { s with _renderer := none, _platform := none },
       [.rendererDelete, .platformDeleteContext])

/-- `OffscreenRenderer.__del__`: `try: self.delete() except Exception:
pass` — any error from `delete` is swallowed, leaving the state as it
was at the point of the raise (no attribute is mutated before either
possible raise in `delete`). -/
def dunder_del (s : OState) : Except PyErr OState :=
  match (delete s).1 with
  | .ok s' => .ok s'
  | .error _ => .ok s

/-- The process environment as `_create` reads it. -/
structure Env where
  pyopengl_platform : Option String
  egl_device_id : Option String
deriving DecidableEq, Repr

/-- `OffscreenRenderer._create` (offscreen.py lines 203-226): selects
the backend from `PYOPENGL_PLATFORM`, raising `ValueError` for an
unsupported value (before any backend is created); then initialises the
context, makes it current, and constructs the scene renderer with the
wrapper's viewport dimensions. -/
def mkCreate (env : Env) (s : OState) :
    Except PyErr OState × List Event :=
  let finish : Platform → Except PyErr OState × List Event := fun p =>
    (.ok { s with
            _platform := some p
            _renderer := some { viewport_width := vwInt s
                                viewport_height := vhInt s
                                point_size := 1 }
            nextId := s.nextId + 1 },
     [.initContext p.id, .makeCurrent p.id])
  match env.pyopengl_platform with
  | none =>
    finish { kind := .pyglet, viewport_width := vwInt s,
             viewport_height := vhInt s, id := s.nextId }
  | some name =>
    if name = "egl" then
      match pyInt? (env.egl_device_id.getD "0") with
      | none => (.error .valueError, [])
      | some device_id =>
        finish { kind := .egl device_id, viewport_width := vwInt s,
                 viewport_height := vhInt s, id := s.nextId }
    else if name = "osmesa" then
      finish { kind := .osmesa, viewport_width := vwInt s,
               viewport_height := vhInt s, id := s.nextId }
    else
      (.error .valueError, [])

/-- `OffscreenRenderer.__init__`: stores the viewport dimensions and
point size through the coercing setters, builds the render-flags
dictionary (defaults, then the `render_flags` argument, then the
recognised `**kwargs` keys, then the darwin shadows override), nulls
both resource references and calls `_create`. `n` seeds the fresh
platform identities. -/
def init (env : Env) (vw vh ps : PyVal)
    (rfArg : Option RFUpdate) (kw : RFUpdate) (isDarwin : Bool) (n : Nat) :
    Except PyErr OState × List Event :=
  let rf0 := defaultRenderFlags
  let rf1 := match rfArg with
    | none => rf0
    | some u => rf0.update u
  let rf2 := rf1.update kw
  let rf3 := if isDarwin then { rf2 with shadows := false } else rf2
  let s0 : OState :=
    { _viewport_width := .int vw.toI
      _viewport_height := .int vh.toI
      _point_size := .float ps.toF
      _render_flags := rf3
      _platform := none
      _renderer := none
      nextId := n }
  mkCreate env s0

/-- What a `render` call returns: the delegated renderer result when the
backend supports framebuffers, otherwise the explicitly read-back depth
buffer alone or the (color, depth) pair. -/
inductive RenderOut where
  | delegated (scene flags : Nat)
  | depthOnly
  | colorDepth
deriving DecidableEq, Repr

/-- The resize block of `OffscreenRenderer.render` (offscreen.py lines
156-162): if the platform's viewport dimensions differ from the
wrapper's and the platform does not support dynamically-resizing
framebuffers, destroys backend and renderer and recreates them. -/
def resizeRestart (cfg : GLConfig) (env : Env) (s : OState) (p : Platform) :
    Except PyErr OState × List Event :=
  if p.viewport_height ≠ vhInt s ∨ p.viewport_width ≠ vwInt s then
    if !cfg.fbSupport p.kind then
      match delete s with
      | (.ok s1, ev1) =>
        match mkCreate env s1 with
        | (.ok s2, ev2) => (.ok s2, ev1 ++ ev2)
        | (.error e, ev2) => (.error e, ev1 ++ ev2)
      | (.error e, ev1) => (.error e, ev1)
    else (.ok s, [])
  else (.ok s, [])

/-- `OffscreenRenderer.render` (offscreen.py lines 136-193): makes the
context current; runs the resize check; makes the context current
again, pushes the wrapper's viewport dimensions and point size onto the
renderer, translates the stored flags into the bitmask, and either
delegates with the `OFFSCREEN` bit (framebuffer backends) or performs
an explicit render pass followed by depth (and, unless `DEPTH_ONLY`,
color) readback. -/
def render (cfg : GLConfig) (env : Env) (s : OState) (scene flags : Nat) :
    Except PyErr (RenderOut × OState) × List Event :=
  match s._platform with
  | none => (.error .attributeError, [])
  | some p =>
    let ev0 : List Event := [.makeCurrent p.id]
    match resizeRestart cfg env s p with
    | (.error e, ev1) => (.error e, ev0 ++ ev1)
    | (.ok s1, ev1) =>
      match s1._platform with
      | none => (.error .attributeError, ev0 ++ ev1)
      | some p1 =>
        let ev2 : List Event := [.makeCurrent p1.id]
        match s1._renderer with
        | none => (.error .attributeError, ev0 ++ ev1 ++ ev2)
        | some r =>
          let r1 : Renderer :=
            { r with viewport_width := vwInt s1
                     viewport_height := vhInt s1
                     point_size := psRat s1 }
          let s2 := { s1 with _renderer := some r1 }
          let f := translateFlags s2._render_flags flags
          if cfg.fbSupport p1.kind then
            (.ok (.delegated scene (f ||| RenderFlags.OFFSCREEN), s2),
             ev0 ++ ev1 ++ ev2 ++
               [.rendererRender scene (f ||| RenderFlags.OFFSCREEN)])
          else
            if f &&& RenderFlags.DEPTH_ONLY ≠ 0 then
              (.ok (.depthOnly, s2),
               ev0 ++ ev1 ++ ev2 ++ [.rendererRender scene f, .readDepth])
            else
              (.ok (.colorDepth, s2),
               ev0 ++ ev1 ++ ev2 ++
                 [.rendererRender scene f, .readDepth, .readColor])

/-- The environments on which `_create` succeeds: `PYOPENGL_PLATFORM`
unset, `"egl"` with a parseable (or absent) `EGL_DEVICE_ID`, or
`"osmesa"`. -/
def envOk (env : Env) : Bool :=
  match env.pyopengl_platform with
  | none => true
  | some name =>
    if name = "egl" then (pyInt? (env.egl_device_id.getD "0")).isSome
    else name = "osmesa"

/-- The states an `OffscreenRenderer` object can be in: freshly
constructed, or obtained from a reachable state by a public setter, a
successful `render` or `delete` call, or the destructor. -/
inductive Reachable : OState → Prop where
  | mkInit (env : Env) (vw vh ps : PyVal) (rfArg : Option RFUpdate)
      (kw : RFUpdate) (isDarwin : Bool) (n : Nat) (s : OState)
      (ev : List Event) :
      init env vw vh ps rfArg kw isDarwin n = (.ok s, ev) → Reachable s
  | setVW (s : OState) (v : PyVal) :
      Reachable s → Reachable (set_viewport_width s v)
  | setVH (s : OState) (v : PyVal) :
      Reachable s → Reachable (set_viewport_height s v)
  | setPS (s : OState) (v : PyVal) :
      Reachable s → Reachable (set_point_size s v)
  | setRF (s : OState) (rf : RenderFlagsMap) :
      Reachable s → Reachable (set_render_flags s rf)
  | stepRender (cfg : GLConfig) (env : Env) (s : OState)
      (scene flags : Nat) (out : RenderOut) (s1 : OState)
      (ev : List Event) :
      Reachable s → render cfg env s scene flags = (.ok (out, s1), ev) →
      Reachable s1
  | stepDelete (s s1 : OState) (ev : List Event) :
      Reachable s → delete s = (.ok s1, ev) → Reachable s1
  | stepDtor (s s1 : OState) :
      Reachable s → dunder_del s = .ok s1 → Reachable s1

/-- The type invariant of claim C10: the stored viewport dimensions are
`int` objects and the stored point size is a `float` object. -/
def typeInv (s : OState) : Prop :=
  s._viewport_width.isInt = true ∧ s._viewport_height.isInt = true ∧
    s._point_size.isFloat = true

end OffscreenRenderer

/-- A loaded mesh as the driver script uses it: the `v` (vertex
positions), `f` (faces) and optional `vc` (per-vertex colors) entries
of the dictionary returned by `objio.load_obj_data`. Rows of the numpy
arrays are rational triples. -/
structure MeshData where
  v : List (Rat × Rat × Rat)
  f : List (Nat × Nat × Nat)
  vc : Option (List (Rat × Rat × Rat))
deriving DecidableEq, Repr

/-- The vertex-color assignment block of `render_360degree.py:main`
(lines 103-110): default colors `ones_like(v) * 0.8` when the mesh has
none; a supplied single-row color array is broadcast
(`ones_like(v) * color`) to every vertex; a supplied multi-row array
must match the vertex count (`assert`, else `AssertionError`) and is
used unchanged. -/
def assignColors (mesh : MeshData) (color : Option (List (Rat × Rat × Rat))) :
    Except PyErr MeshData :=
  let mesh1 :=
    match mesh.vc with
    | none => { mesh with vc := some (mesh.v.map fun _ => (0.8, 0.8, 0.8)) }
    | some _ => mesh
  match color with
  | none => .ok mesh1
  | some c =>
    if c.length = 1 then
      .ok { mesh1 with vc := some (mesh1.v.map fun _ => c.headD (0, 0, 0)) }
    else if mesh1.v.length = c.length then
      .ok { mesh1 with vc := some c }
    else
      .error .assertionError

/-- `rotationy(theta)` of `render_360degree.py` (lines 59-65): the 4x4
rotation about the y axis by `theta` degrees. The numpy floating-point
`cos`/`sin` are idealised as the exact real functions. -/
noncomputable def rotationy (theta : ℝ) : Matrix (Fin 4) (Fin 4) ℝ :=
  !![Real.cos (theta / 180 * Real.pi), 0, Real.sin (theta / 180 * Real.pi), 0;
     0, 1, 0, 0;
     -Real.sin (theta / 180 * Real.pi), 0, Real.cos (theta / 180 * Real.pi), 0;
     0, 0, 0, 1]

/-- `rotmat = rotationy(angle)[:3, :3]` (render_360degree.py line
161). -/
noncomputable def rotmat3 (angle : ℝ) : Matrix (Fin 3) (Fin 3) ℝ :=
  (rotationy angle).submatrix (Fin.castLE (by omega)) (Fin.castLE (by omega))

/-- One vertex position through one iteration of the per-view loop
(render_360degree.py line 163): a row of
`np.matmul(mesh.v, rotmat.transpose())`. -/
noncomputable def rotateStep (angle : ℝ) (v : Fin 3 → ℝ) : Fin 3 → ℝ :=
  Matrix.vecMul v (rotmat3 angle).transpose

/-! ## Helper lemmas -/

lemma delete_full (s : OState) (p : Platform) (r : Renderer)
    (hp : s._platform = some p) (hr : s._renderer = some r) :
    OffscreenRenderer.delete s =
      (.ok { s with _renderer := none, _platform := none },
       [.rendererDelete, .platformDeleteContext]) := by
  unfold OffscreenRenderer.delete
  rw [hr, hp]

lemma delete_fields (s s1 : OState) (ev : List Event)
    (h : OffscreenRenderer.delete s = (.ok s1, ev)) :
    s1._viewport_width = s._viewport_width ∧
      s1._viewport_height = s._viewport_height ∧
      s1._point_size = s._point_size ∧
      s1._render_flags = s._render_flags ∧
      s1._renderer = none ∧ s1._platform = none ∧ s1.nextId = s.nextId := by
  unfold OffscreenRenderer.delete at h
  split at h
  · simp at h
  · split at h
    · simp at h
    · simp only [Prod.mk.injEq, Except.ok.injEq] at h
      obtain ⟨h1, -⟩ := h
      subst h1
      simp

lemma dunder_del_fields (s s1 : OState)
    (h : OffscreenRenderer.dunder_del s = .ok s1) :
    s1._viewport_width = s._viewport_width ∧
      s1._viewport_height = s._viewport_height ∧
      s1._point_size = s._point_size := by
  unfold OffscreenRenderer.dunder_del at h
  split at h
  · rename_i s2 heq
    simp only [Except.ok.injEq] at h
    subst h
    have := delete_fields s s2 (OffscreenRenderer.delete s).2
      (by rw [← heq])
    exact ⟨this.1, this.2.1, this.2.2.1⟩
  · simp only [Except.ok.injEq] at h
    subst h
    exact ⟨rfl, rfl, rfl⟩

lemma mkCreate_ok (env : OffscreenRenderer.Env) (s : OState)
    (h : OffscreenRenderer.envOk env = true) :
    ∃ k : PlatformKind,
      OffscreenRenderer.mkCreate env s =
        (.ok { s with
                _platform := some { kind := k,
                                    viewport_width := OffscreenRenderer.vwInt s,
                                    viewport_height := OffscreenRenderer.vhInt s,
                                    id := s.nextId }
                _renderer := some { viewport_width := OffscreenRenderer.vwInt s,
                                    viewport_height := OffscreenRenderer.vhInt s,
                                    point_size := 1 }
                nextId := s.nextId + 1 },
         [.initContext s.nextId, .makeCurrent s.nextId]) := by
  obtain ⟨plat, dev⟩ := env
  unfold OffscreenRenderer.envOk at h
  unfold OffscreenRenderer.mkCreate
  dsimp only at h ⊢
  cases plat with
  | none => exact ⟨.pyglet, rfl⟩
  | some name =>
    by_cases hegl : name = "egl"
    · subst hegl
      cases hd : pyInt? (dev.getD "0") with
      | none => simp [hd] at h
      | some d => exact ⟨.egl d, rfl⟩
    · simp only [hegl] at h
      simp [hegl] at h
      subst h
      exact ⟨.osmesa, rfl⟩

lemma mkCreate_fields (env : OffscreenRenderer.Env) (s s1 : OState) (ev : List Event)
    (h : OffscreenRenderer.mkCreate env s = (.ok s1, ev)) :
    s1._viewport_width = s._viewport_width ∧
      s1._viewport_height = s._viewport_height ∧
      s1._point_size = s._point_size ∧
      s1._render_flags = s._render_flags := by
  unfold OffscreenRenderer.mkCreate at h
  split at h
  · simp only [Prod.mk.injEq, Except.ok.injEq] at h
    obtain ⟨h1, -⟩ := h
    subst h1
    simp
  · split at h
    · split at h
      · simp at h
      · simp only [Prod.mk.injEq, Except.ok.injEq] at h
        obtain ⟨h1, -⟩ := h
        subst h1
        simp
    · split at h
      · simp only [Prod.mk.injEq, Except.ok.injEq] at h
        obtain ⟨h1, -⟩ := h
        subst h1
        simp
      · simp at h

lemma resizeRestart_noop (cfg : GLConfig) (env : OffscreenRenderer.Env)
    (s : OState) (p : Platform)
    (h : (p.viewport_height = OffscreenRenderer.vhInt s ∧
            p.viewport_width = OffscreenRenderer.vwInt s) ∨
         cfg.fbSupport p.kind = true) :
    OffscreenRenderer.resizeRestart cfg env s p = (.ok s, []) := by
  unfold OffscreenRenderer.resizeRestart
  rcases h with ⟨h1, h2⟩ | hfb
  · rw [if_neg]
    push_neg
    exact ⟨h1, h2⟩
  · split
    · rw [hfb]
      rfl
    · rfl

lemma resizeRestart_restart (cfg : GLConfig) (env : OffscreenRenderer.Env)
    (s : OState) (p : Platform) (r : Renderer)
    (hp : s._platform = some p) (hr : s._renderer = some r)
    (hdim : p.viewport_height ≠ OffscreenRenderer.vhInt s ∨
            p.viewport_width ≠ OffscreenRenderer.vwInt s)
    (hfb : cfg.fbSupport p.kind = false)
    (henv : OffscreenRenderer.envOk env = true) :
    ∃ k : PlatformKind,
      OffscreenRenderer.resizeRestart cfg env s p =
        (.ok { s with
                _platform := some { kind := k,
                                    viewport_width := OffscreenRenderer.vwInt s,
                                    viewport_height := OffscreenRenderer.vhInt s,
                                    id := s.nextId }
                _renderer := some { viewport_width := OffscreenRenderer.vwInt s,
                                    viewport_height := OffscreenRenderer.vhInt s,
                                    point_size := 1 }
                nextId := s.nextId + 1 },
         [.rendererDelete, .platformDeleteContext,
          .initContext s.nextId, .makeCurrent s.nextId]) := by
  have hdel := delete_full s p r hp hr
  have hcre := mkCreate_ok env { s with _renderer := none, _platform := none } henv
  obtain ⟨k, hcre⟩ := hcre
  refine ⟨k, ?_⟩
  unfold OffscreenRenderer.resizeRestart
  rw [if_pos hdim, hfb]
  simp only [Bool.not_false, if_pos]
  rw [hdel]
  dsimp only [OffscreenRenderer.vwInt, OffscreenRenderer.vhInt] at hcre ⊢
  rw [hcre]
  rfl

lemma render_noresize (cfg : GLConfig) (env : OffscreenRenderer.Env)
    (s : OState) (p : Platform) (r : Renderer) (scene flags : Nat)
    (hp : s._platform = some p) (hr : s._renderer = some r)
    (hkeep : (p.viewport_height = OffscreenRenderer.vhInt s ∧
              p.viewport_width = OffscreenRenderer.vwInt s) ∨
             cfg.fbSupport p.kind = true) :
    OffscreenRenderer.render cfg env s scene flags =
      (if cfg.fbSupport p.kind then
        (.ok (.delegated scene
            (translateFlags s._render_flags flags ||| RenderFlags.OFFSCREEN),
          { s with _renderer := some { r with
              viewport_width := OffscreenRenderer.vwInt s
              viewport_height := OffscreenRenderer.vhInt s
              point_size := OffscreenRenderer.psRat s } }),
         [.makeCurrent p.id, .makeCurrent p.id,
          .rendererRender scene
            (translateFlags s._render_flags flags ||| RenderFlags.OFFSCREEN)])
      else if translateFlags s._render_flags flags &&& RenderFlags.DEPTH_ONLY ≠ 0 then
        (.ok (.depthOnly,
          { s with _renderer := some { r with
              viewport_width := OffscreenRenderer.vwInt s
              viewport_height := OffscreenRenderer.vhInt s
              point_size := OffscreenRenderer.psRat s } }),
         [.makeCurrent p.id, .makeCurrent p.id,
          .rendererRender scene (translateFlags s._render_flags flags),
          .readDepth])
      else
        (.ok (.colorDepth,
          { s with _renderer := some { r with
              viewport_width := OffscreenRenderer.vwInt s
              viewport_height := OffscreenRenderer.vhInt s
              point_size := OffscreenRenderer.psRat s } }),
         [.makeCurrent p.id, .makeCurrent p.id,
          .rendererRender scene (translateFlags s._render_flags flags),
          .readDepth, .readColor])) := by
  unfold OffscreenRenderer.render
  rw [hp]
  dsimp only
  rw [resizeRestart_noop cfg env s p hkeep]
  dsimp only
  rw [hp, hr]
  rfl

lemma resizeRestart_fields (cfg : GLConfig) (env : OffscreenRenderer.Env)
    (s : OState) (p : Platform) (s1 : OState) (ev : List Event)
    (h : OffscreenRenderer.resizeRestart cfg env s p = (.ok s1, ev)) :
    s1._viewport_width = s._viewport_width ∧
      s1._viewport_height = s._viewport_height ∧
      s1._point_size = s._point_size := by
  unfold OffscreenRenderer.resizeRestart at h
  split at h
  · split at h
    · split at h
      · rename_i sdel ev1 hdel
        split at h
        · rename_i s2 ev2 hcre
          simp only [Prod.mk.injEq, Except.ok.injEq] at h
          obtain ⟨h1, -⟩ := h
          subst h1
          have hd := delete_fields s sdel ev1 hdel
          have hc := mkCreate_fields env sdel _ ev2 hcre
          exact ⟨hc.1.trans hd.1, hc.2.1.trans hd.2.1, hc.2.2.1.trans hd.2.2.1⟩
        · simp at h
      · simp at h
    · simp only [Prod.mk.injEq, Except.ok.injEq] at h
      obtain ⟨h1, -⟩ := h
      subst h1
      exact ⟨rfl, rfl, rfl⟩
  · simp only [Prod.mk.injEq, Except.ok.injEq] at h
    obtain ⟨h1, -⟩ := h
    subst h1
    exact ⟨rfl, rfl, rfl⟩

lemma render_fields (cfg : GLConfig) (env : OffscreenRenderer.Env)
    (s : OState) (scene flags : Nat) (out : OffscreenRenderer.RenderOut)
    (s1 : OState) (ev : List Event)
    (h : OffscreenRenderer.render cfg env s scene flags = (.ok (out, s1), ev)) :
    s1._viewport_width = s._viewport_width ∧
      s1._viewport_height = s._viewport_height ∧
      s1._point_size = s._point_size := by
  unfold OffscreenRenderer.render at h
  split at h
  · simp at h
  · rename_i p hp
    dsimp only at h
    split at h
    · simp at h
    · rename_i smid ev1 hrr
      have hmid := resizeRestart_fields cfg env s p smid ev1 hrr
      split at h
      · simp at h
      · split at h
        · simp at h
        · split at h
          · simp only [Prod.mk.injEq, Except.ok.injEq] at h
            obtain ⟨⟨-, h1⟩, -⟩ := h
            subst h1
            exact hmid
          · split at h
            · simp only [Prod.mk.injEq, Except.ok.injEq] at h
              obtain ⟨⟨-, h1⟩, -⟩ := h
              subst h1
              exact hmid
            · simp only [Prod.mk.injEq, Except.ok.injEq] at h
              obtain ⟨⟨-, h1⟩, -⟩ := h
              subst h1
              exact hmid

lemma render_restart (cfg : GLConfig) (env : OffscreenRenderer.Env)
    (s : OState) (p : Platform) (r : Renderer) (scene flags : Nat)
    (hp : s._platform = some p) (hr : s._renderer = some r)
    (hdim : p.viewport_height ≠ OffscreenRenderer.vhInt s ∨
            p.viewport_width ≠ OffscreenRenderer.vwInt s)
    (hfb : cfg.fbSupport p.kind = false)
    (henv : OffscreenRenderer.envOk env = true) :
    ∃ k : PlatformKind,
      OffscreenRenderer.render cfg env s scene flags =
        (let f := translateFlags s._render_flags flags
         let s2 : OState :=
           { s with
              _platform := some { kind := k,
                                  viewport_width := OffscreenRenderer.vwInt s,
                                  viewport_height := OffscreenRenderer.vhInt s,
                                  id := s.nextId }
              _renderer := some { viewport_width := OffscreenRenderer.vwInt s,
                                  viewport_height := OffscreenRenderer.vhInt s,
                                  point_size := OffscreenRenderer.psRat s }
              nextId := s.nextId + 1 }
         let evs : List Event :=
           [.makeCurrent p.id, .rendererDelete, .platformDeleteContext,
            .initContext s.nextId, .makeCurrent s.nextId,
            .makeCurrent s.nextId]
         if cfg.fbSupport k then
           (.ok (.delegated scene (f ||| RenderFlags.OFFSCREEN), s2),
            evs ++ [.rendererRender scene (f ||| RenderFlags.OFFSCREEN)])
         else if f &&& RenderFlags.DEPTH_ONLY ≠ 0 then
           (.ok (.depthOnly, s2), evs ++ [.rendererRender scene f, .readDepth])
         else
           (.ok (.colorDepth, s2),
            evs ++ [.rendererRender scene f, .readDepth, .readColor])) := by
  obtain ⟨k, hrr⟩ := resizeRestart_restart cfg env s p r hp hr hdim hfb henv
  refine ⟨k, ?_⟩
  unfold OffscreenRenderer.render
  rw [hp]
  dsimp only
  rw [hrr]
  rfl

/-! ## Claim theorems -/

/-- C2: in `render`, the three wireframe/solid flags are translated with
the mutually exclusive priority order flip_wireframe > all_wireframe >
all_solid. When all three are true only the `FLIP_WIREFRAME` bit (bit 2)
is added to the downstream bitmask and the `ALL_WIREFRAME` (bit 3) and
`ALL_SOLID` (bit 4) bits are left exactly as in the incoming mask; when
flip_wireframe is false and all_wireframe is true only `ALL_WIREFRAME`
is added; when only all_solid is true only `ALL_SOLID` is added. The
remaining flags (shadows, normals, culling, point size) are arbitrary. -/
theorem claim_C2_wireframe_priority (sh vn fn cf : Bool) (ps : Rat)
    (flags : Nat) :
    ((translateFlags ⟨true, true, true, sh, vn, fn, cf, ps⟩ flags).testBit 2
        = true ∧
     (translateFlags ⟨true, true, true, sh, vn, fn, cf, ps⟩ flags).testBit 3
        = flags.testBit 3 ∧
     (translateFlags ⟨true, true, true, sh, vn, fn, cf, ps⟩ flags).testBit 4
        = flags.testBit 4) ∧
    (∀ sol : Bool,
     (translateFlags ⟨false, true, sol, sh, vn, fn, cf, ps⟩ flags).testBit 3
        = true ∧
     (translateFlags ⟨false, true, sol, sh, vn, fn, cf, ps⟩ flags).testBit 2
        = flags.testBit 2 ∧
     (translateFlags ⟨false, true, sol, sh, vn, fn, cf, ps⟩ flags).testBit 4
        = flags.testBit 4) ∧
    ((translateFlags ⟨false, false, true, sh, vn, fn, cf, ps⟩ flags).testBit 4
        = true ∧
     (translateFlags ⟨false, false, true, sh, vn, fn, cf, ps⟩ flags).testBit 2
        = flags.testBit 2 ∧
     (translateFlags ⟨false, false, true, sh, vn, fn, cf, ps⟩ flags).testBit 3
        = flags.testBit 3) := by
  refine ⟨⟨?_, ?_, ?_⟩, fun sol => ⟨?_, ?_, ?_⟩, ⟨?_, ?_, ?_⟩⟩ <;>
    cases sh <;> cases vn <;> cases fn <;> cases cf <;>
      simp [translateFlags, RenderFlags.FLIP_WIREFRAME,
        RenderFlags.ALL_WIREFRAME, RenderFlags.ALL_SOLID,
        RenderFlags.SHADOWS_DIRECTIONAL, RenderFlags.SHADOWS_SPOT,
        RenderFlags.VERTEX_NORMALS, RenderFlags.FACE_NORMALS,
        RenderFlags.SKIP_CULL_FACES, Nat.testBit_or,
        (by decide : Nat.testBit 4 2 = true),
        (by decide : Nat.testBit 4 3 = false),
        (by decide : Nat.testBit 4 4 = false),
        (by decide : Nat.testBit 8 2 = false),
        (by decide : Nat.testBit 8 3 = true),
        (by decide : Nat.testBit 8 4 = false),
        (by decide : Nat.testBit 16 2 = false),
        (by decide : Nat.testBit 16 3 = false),
        (by decide : Nat.testBit 16 4 = true),
        (by decide : Nat.testBit 32 2 = false),
        (by decide : Nat.testBit 32 3 = false),
        (by decide : Nat.testBit 32 4 = false),
        (by decide : Nat.testBit 128 2 = false),
        (by decide : Nat.testBit 128 3 = false),
        (by decide : Nat.testBit 128 4 = false),
        (by decide : Nat.testBit 256 2 = false),
        (by decide : Nat.testBit 256 3 = false),
        (by decide : Nat.testBit 256 4 = false),
        (by decide : Nat.testBit 512 2 = false),
        (by decide : Nat.testBit 512 3 = false),
        (by decide : Nat.testBit 512 4 = false),
        (by decide : Nat.testBit 1024 2 = false),
        (by decide : Nat.testBit 1024 3 = false),
        (by decide : Nat.testBit 1024 4 = false),
        (by decide : Nat.testBit 160 2 = false),
        (by decide : Nat.testBit 160 3 = false),
        (by decide : Nat.testBit 160 4 = false)]

/-- C8: one `delete()` on a fully-constructed `OffscreenRenderer`
releases the scene renderer (`_renderer.delete()`) strictly before the
backend context (`_platform.delete_context()`) — the event trace is
exactly those two calls in that order — and afterwards both the
renderer and the platform reference are `None`. -/
theorem claim_C8_delete_order_and_nulls (s : OState) (p : Platform)
    (r : Renderer) (hp : s._platform = some p) (hr : s._renderer = some r) :
    OffscreenRenderer.delete s =
      (.ok { s with _renderer := none, _platform := none },
       [.rendererDelete, .platformDeleteContext]) := by
  unfold OffscreenRenderer.delete
  rw [hr, hp]

/-- Witness for C8 at a concrete fully-constructed state. -/
theorem claim_C8_witness :
    OffscreenRenderer.delete
        { _viewport_width := .int 640, _viewport_height := .int 480,
          _point_size := .float 1, _render_flags := defaultRenderFlags,
          _platform := some { kind := .pyglet, viewport_width := 640,
                              viewport_height := 480, id := 0 },
          _renderer := some { viewport_width := 640, viewport_height := 480,
                              point_size := 1 },
          nextId := 1 } =
      (.ok { _viewport_width := .int 640, _viewport_height := .int 480,
             _point_size := .float 1, _render_flags := defaultRenderFlags,
             _platform := none, _renderer := none, nextId := 1 },
       [.rendererDelete, .platformDeleteContext]) :=
  claim_C8_delete_order_and_nulls _
    { kind := .pyglet, viewport_width := 640, viewport_height := 480,
      id := 0 }
    { viewport_width := 640, viewport_height := 480, point_size := 1 }
    rfl rfl

/-- C9: the destructor `__del__` never propagates an exception: for
every object state (including partially-constructed ones where the
renderer or platform reference is `None`) it attempts `delete()` and
swallows any error, always returning normally. -/
theorem claim_C9_dtor_never_raises (s : OState) :
    ∃ s1 : OState, OffscreenRenderer.dunder_del s = .ok s1 := by
  unfold OffscreenRenderer.dunder_del
  cases (OffscreenRenderer.delete s).1 with
  | ok s1 => exact ⟨s1, rfl⟩
  | error e => exact ⟨s, rfl⟩

/-- C1 counterexample: on a concrete fully-constructed
`OffscreenRenderer`, the first `delete()` succeeds (nulling both
references) and the second `delete()` raises `AttributeError` (from
`None.delete()`), refuting "a second `delete()` call does not raise any
error". -/
theorem claim_C1_counterexample :
    (OffscreenRenderer.delete
        { _viewport_width := .int 640, _viewport_height := .int 480,
          _point_size := .float 1, _render_flags := defaultRenderFlags,
          _platform := some { kind := .pyglet, viewport_width := 640,
                              viewport_height := 480, id := 0 },
          _renderer := some { viewport_width := 640, viewport_height := 480,
                              point_size := 1 },
          nextId := 1 }).1 =
      .ok { _viewport_width := .int 640, _viewport_height := .int 480,
            _point_size := .float 1, _render_flags := defaultRenderFlags,
            _platform := none, _renderer := none, nextId := 1 } ∧
    (OffscreenRenderer.delete
        { _viewport_width := .int 640, _viewport_height := .int 480,
          _point_size := .float 1, _render_flags := defaultRenderFlags,
          _platform := none, _renderer := none, nextId := 1 }).1 =
      .error .attributeError :=
  ⟨rfl, rfl⟩

/-- C1 (amended): after a `delete()` call has succeeded, a second
`delete()` call raises `AttributeError` — the first call nulled
`self._renderer`, so the second dereferences `None`. A repeated
teardown is error-free only through the destructor path `__del__`,
which swallows the exception. -/
theorem claim_C1_second_delete_raises (s s1 : OState) (ev : List Event)
    (h : OffscreenRenderer.delete s = (.ok s1, ev)) :
    (OffscreenRenderer.delete s1).1 = .error .attributeError := by
  have hfields := delete_fields s s1 ev h
  unfold OffscreenRenderer.delete
  rw [hfields.2.2.2.2.1]

/-- Witness for the amended C1 at a concrete state. -/
theorem claim_C1_witness :
    (OffscreenRenderer.delete
        { _viewport_width := .int 640, _viewport_height := .int 480,
          _point_size := .float 1, _render_flags := defaultRenderFlags,
          _platform := none, _renderer := none, nextId := 1 }).1 =
      .error .attributeError :=
  claim_C1_second_delete_raises
    { _viewport_width := .int 640, _viewport_height := .int 480,
      _point_size := .float 1, _render_flags := defaultRenderFlags,
      _platform := some { kind := .pyglet, viewport_width := 640,
                          viewport_height := 480, id := 0 },
      _renderer := some { viewport_width := 640, viewport_height := 480,
                          point_size := 1 },
      nextId := 1 }
    { _viewport_width := .int 640, _viewport_height := .int 480,
      _point_size := .float 1, _render_flags := defaultRenderFlags,
      _platform := none, _renderer := none, nextId := 1 }
    [.rendererDelete, .platformDeleteContext]
    rfl

/-- C3: at construction the backend is selected by the
`PYOPENGL_PLATFORM` environment variable: unset → the windowed-hidden
(pyglet) backend; `"egl"` → the EGL backend with the device index read
from `EGL_DEVICE_ID` (default 0); `"osmesa"` → the software (OSMesa)
backend; any other value → `ValueError`, with no backend created (no
context event is emitted). -/
theorem claim_C3_backend_selection (vw vh ps : PyVal) (rfArg : Option RFUpdate)
    (kw : RFUpdate) (isD : Bool) (n : Nat) :
    (∀ dev : Option String, ∃ s : OState, ∃ ev : List Event, ∃ p : Platform,
        OffscreenRenderer.init { pyopengl_platform := none, egl_device_id := dev }
            vw vh ps rfArg kw isD n = (.ok s, ev) ∧
          s._platform = some p ∧ p.kind = .pyglet) ∧
    (∀ str : String, ∀ d : Int, pyInt? str = some d →
        ∃ s : OState, ∃ ev : List Event, ∃ p : Platform,
        OffscreenRenderer.init
            { pyopengl_platform := some "egl", egl_device_id := some str }
            vw vh ps rfArg kw isD n = (.ok s, ev) ∧
          s._platform = some p ∧ p.kind = .egl d) ∧
    (∃ s : OState, ∃ ev : List Event, ∃ p : Platform,
        OffscreenRenderer.init
            { pyopengl_platform := some "egl", egl_device_id := none }
            vw vh ps rfArg kw isD n = (.ok s, ev) ∧
          s._platform = some p ∧ p.kind = .egl 0) ∧
    (∀ dev : Option String, ∃ s : OState, ∃ ev : List Event, ∃ p : Platform,
        OffscreenRenderer.init
            { pyopengl_platform := some "osmesa", egl_device_id := dev }
            vw vh ps rfArg kw isD n = (.ok s, ev) ∧
          s._platform = some p ∧ p.kind = .osmesa) ∧
    (∀ name : String, ∀ dev : Option String,
        name ≠ "egl" → name ≠ "osmesa" →
        OffscreenRenderer.init
            { pyopengl_platform := some name, egl_device_id := dev }
            vw vh ps rfArg kw isD n = (.error .valueError, [])) := by
  refine ⟨?_, ?_, ?_, ?_, ?_⟩
  · intro dev
    exact ⟨_, _, _, rfl, rfl, rfl⟩
  · intro str d hd
    unfold OffscreenRenderer.init OffscreenRenderer.mkCreate
    dsimp only [Option.getD]
    rw [hd]
    exact ⟨_, _, _, rfl, rfl, rfl⟩
  · exact ⟨_, _, _, rfl, rfl, rfl⟩
  · intro dev
    exact ⟨_, _, _, rfl, rfl, rfl⟩
  · intro name dev h1 h2
    unfold OffscreenRenderer.init OffscreenRenderer.mkCreate
    dsimp only
    rw [if_neg h1, if_neg h2]

/-- Witness for C3 at concrete environments and constructor
arguments. -/
theorem claim_C3_witness :
    (∃ s : OState, ∃ ev : List Event, ∃ p : Platform,
        OffscreenRenderer.init { pyopengl_platform := none, egl_device_id := none }
            (.int 640) (.int 480) (.float 1) none {} false 0 = (.ok s, ev) ∧
          s._platform = some p ∧ p.kind = .pyglet) ∧
    (∃ s : OState, ∃ ev : List Event, ∃ p : Platform,
        OffscreenRenderer.init
            { pyopengl_platform := some "egl", egl_device_id := some "1" }
            (.int 640) (.int 480) (.float 1) none {} false 0 = (.ok s, ev) ∧
          s._platform = some p ∧ p.kind = .egl 1) ∧
    (∃ s : OState, ∃ ev : List Event, ∃ p : Platform,
        OffscreenRenderer.init
            { pyopengl_platform := some "egl", egl_device_id := none }
            (.int 640) (.int 480) (.float 1) none {} false 0 = (.ok s, ev) ∧
          s._platform = some p ∧ p.kind = .egl 0) ∧
    (∃ s : OState, ∃ ev : List Event, ∃ p : Platform,
        OffscreenRenderer.init
            { pyopengl_platform := some "osmesa", egl_device_id := none }
            (.int 640) (.int 480) (.float 1) none {} false 0 = (.ok s, ev) ∧
          s._platform = some p ∧ p.kind = .osmesa) ∧
    OffscreenRenderer.init
        { pyopengl_platform := some "glx", egl_device_id := none }
        (.int 640) (.int 480) (.float 1) none {} false 0 =
      (.error .valueError, []) := by
  obtain ⟨h1, h2, h3, h4, h5⟩ :=
    claim_C3_backend_selection (.int 640) (.int 480) (.float 1) none {} false 0
  exact ⟨h1 none, h2 "1" 1 (by decide), h3, h4 none,
    h5 "glx" none (by decide) (by decide)⟩

/-- C5: in the driver script, a supplied color array with exactly one
row is broadcast to every vertex of the loaded mesh (the per-vertex
color list has one entry per mesh vertex, each equal to the supplied
color); a supplied array with more than one row whose row count differs
from the mesh's vertex count raises the fatal dimension-mismatch
`AssertionError`; when the row counts match the supplied array is used
as the per-vertex colors unchanged. -/
theorem claim_C5_color_assignment :
    (∀ (mesh : MeshData) (c0 : Rat × Rat × Rat),
        ∃ m1 : MeshData,
          assignColors mesh (some [c0]) = .ok m1 ∧
          m1.vc = some (mesh.v.map fun _ => c0) ∧
          (mesh.v.map fun _ => c0).length = mesh.v.length ∧
          ∀ x ∈ mesh.v.map fun _ => c0, x = c0) ∧
    (∀ (mesh : MeshData) (c : List (Rat × Rat × Rat)),
        1 < c.length → mesh.v.length ≠ c.length →
        assignColors mesh (some c) = .error .assertionError) ∧
    (∀ (mesh : MeshData) (c : List (Rat × Rat × Rat)),
        1 < c.length → mesh.v.length = c.length →
        ∃ m1 : MeshData,
          assignColors mesh (some c) = .ok m1 ∧ m1.vc = some c) := by
  refine ⟨?_, ?_, ?_⟩
  · intro mesh c0
    refine ⟨{ mesh with vc := some (mesh.v.map fun _ => c0) }, ?_, ?_, ?_, ?_⟩
    · cases hvc : mesh.vc <;> simp [assignColors, hvc]
    · simp
    · simp
    · simp
  · intro mesh c h1 h2
    cases hvc : mesh.vc with
    | none =>
      simp only [assignColors, hvc]
      rw [if_neg (by omega), if_neg (by simpa using h2)]
    | some l =>
      simp only [assignColors, hvc]
      rw [if_neg (by omega), if_neg (by simpa using h2)]
  · intro mesh c h1 h2
    refine ⟨{ mesh with vc := some c }, ?_, ?_⟩
    · cases hvc : mesh.vc with
      | none =>
        simp only [assignColors, hvc]
        rw [if_neg (by omega), if_pos (by simpa using h2)]
      | some l =>
        simp only [assignColors, hvc]
        rw [if_neg (by omega), if_pos (by simpa using h2)]
    · simp

/-- Witness for C5 at concrete meshes and color arrays. -/
theorem claim_C5_witness :
    (∃ m1 : MeshData,
        assignColors { v := [(1, 2, 3), (4, 5, 6)], f := [], vc := none }
            (some [(1, 0, 0)]) = .ok m1 ∧
        m1.vc = some ([(1, 2, 3), (4, 5, 6)].map fun _ => ((1 : Rat), (0 : Rat), (0 : Rat))) ∧
        ([((1 : Rat), (2 : Rat), (3 : Rat)), (4, 5, 6)].map
            fun _ => ((1 : Rat), (0 : Rat), (0 : Rat))).length =
          [((1 : Rat), (2 : Rat), (3 : Rat)), (4, 5, 6)].length ∧
        ∀ x ∈ [((1 : Rat), (2 : Rat), (3 : Rat)), (4, 5, 6)].map
            fun _ => ((1 : Rat), (0 : Rat), (0 : Rat)),
          x = ((1 : Rat), (0 : Rat), (0 : Rat))) ∧
    assignColors { v := [(1, 2, 3), (4, 5, 6)], f := [], vc := none }
        (some [(1, 0, 0), (0, 1, 0), (0, 0, 1)]) = .error .assertionError ∧
    (∃ m1 : MeshData,
        assignColors { v := [(1, 2, 3), (4, 5, 6)], f := [], vc := none }
            (some [(1, 0, 0), (0, 1, 0)]) = .ok m1 ∧
        m1.vc = some [(1, 0, 0), (0, 1, 0)]) := by
  obtain ⟨h1, h2, h3⟩ := claim_C5_color_assignment
  exact ⟨h1 { v := [(1, 2, 3), (4, 5, 6)], f := [], vc := none } (1, 0, 0),
    h2 { v := [(1, 2, 3), (4, 5, 6)], f := [], vc := none }
      [(1, 0, 0), (0, 1, 0), (0, 0, 1)] (by decide) (by decide),
    h3 { v := [(1, 2, 3), (4, 5, 6)], f := [], vc := none }
      [(1, 0, 0), (0, 1, 0)] (by decide) (by decide)⟩

/-- C7: for a `render()` call on a backend without native framebuffer
support (dimensions unchanged, so no restart interferes), an explicit
render pass is performed and then buffers are read back: if the
effective flags include `DEPTH_ONLY` only the depth buffer is returned,
otherwise the (color, depth) pair; on a backend with native framebuffer
support the `OFFSCREEN` bit is added and the call delegates directly to
the underlying renderer, returning its result. -/
theorem claim_C7_delegate_or_readback (cfg : GLConfig)
    (env : OffscreenRenderer.Env) (s : OState) (p : Platform) (r : Renderer)
    (scene flags : Nat)
    (hp : s._platform = some p) (hr : s._renderer = some r)
    (hdim : p.viewport_height = OffscreenRenderer.vhInt s ∧
            p.viewport_width = OffscreenRenderer.vwInt s) :
    (cfg.fbSupport p.kind = false →
      (translateFlags s._render_flags flags &&& RenderFlags.DEPTH_ONLY ≠ 0 →
        OffscreenRenderer.render cfg env s scene flags =
          (.ok (.depthOnly,
            { s with _renderer := some { r with
                viewport_width := OffscreenRenderer.vwInt s
                viewport_height := OffscreenRenderer.vhInt s
                point_size := OffscreenRenderer.psRat s } }),
           [.makeCurrent p.id, .makeCurrent p.id,
            .rendererRender scene (translateFlags s._render_flags flags),
            .readDepth])) ∧
      (translateFlags s._render_flags flags &&& RenderFlags.DEPTH_ONLY = 0 →
        OffscreenRenderer.render cfg env s scene flags =
          (.ok (.colorDepth,
            { s with _renderer := some { r with
                viewport_width := OffscreenRenderer.vwInt s
                viewport_height := OffscreenRenderer.vhInt s
                point_size := OffscreenRenderer.psRat s } }),
           [.makeCurrent p.id, .makeCurrent p.id,
            .rendererRender scene (translateFlags s._render_flags flags),
            .readDepth, .readColor]))) ∧
    (cfg.fbSupport p.kind = true →
      OffscreenRenderer.render cfg env s scene flags =
        (.ok (.delegated scene
            (translateFlags s._render_flags flags ||| RenderFlags.OFFSCREEN),
          { s with _renderer := some { r with
              viewport_width := OffscreenRenderer.vwInt s
              viewport_height := OffscreenRenderer.vhInt s
              point_size := OffscreenRenderer.psRat s } }),
         [.makeCurrent p.id, .makeCurrent p.id,
          .rendererRender scene
            (translateFlags s._render_flags flags |||
              RenderFlags.OFFSCREEN)])) := by
  have hnr := render_noresize cfg env s p r scene flags hp hr (Or.inl hdim)
  refine ⟨fun hfb => ⟨fun hdo => ?_, fun hdo => ?_⟩, fun hfb => ?_⟩
  · rw [hnr, if_neg (by simp [hfb]), if_pos hdo]
  · rw [hnr, if_neg (by simp [hfb]), if_neg (by simp [hdo])]
  · rw [hnr, if_pos hfb]

/-- Witness for C7 at a concrete state on both backend variants and
both flag settings. -/
theorem claim_C7_witness :
    OffscreenRenderer.render { fbSupport := fun _ => false }
        { pyopengl_platform := none, egl_device_id := none }
        { _viewport_width := .int 640, _viewport_height := .int 480,
          _point_size := .float 1, _render_flags := defaultRenderFlags,
          _platform := some { kind := .pyglet, viewport_width := 640,
                              viewport_height := 480, id := 0 },
          _renderer := some { viewport_width := 640, viewport_height := 480,
                              point_size := 1 },
          nextId := 1 } 7 1 =
      (.ok (.depthOnly,
        { _viewport_width := .int 640, _viewport_height := .int 480,
          _point_size := .float 1, _render_flags := defaultRenderFlags,
          _platform := some { kind := .pyglet, viewport_width := 640,
                              viewport_height := 480, id := 0 },
          _renderer := some { viewport_width := 640, viewport_height := 480,
                              point_size := 1 },
          nextId := 1 }),
       [.makeCurrent 0, .makeCurrent 0, .rendererRender 7 1, .readDepth]) ∧
    OffscreenRenderer.render { fbSupport := fun _ => false }
        { pyopengl_platform := none, egl_device_id := none }
        { _viewport_width := .int 640, _viewport_height := .int 480,
          _point_size := .float 1, _render_flags := defaultRenderFlags,
          _platform := some { kind := .pyglet, viewport_width := 640,
                              viewport_height := 480, id := 0 },
          _renderer := some { viewport_width := 640, viewport_height := 480,
                              point_size := 1 },
          nextId := 1 } 7 0 =
      (.ok (.colorDepth,
        { _viewport_width := .int 640, _viewport_height := .int 480,
          _point_size := .float 1, _render_flags := defaultRenderFlags,
          _platform := some { kind := .pyglet, viewport_width := 640,
                              viewport_height := 480, id := 0 },
          _renderer := some { viewport_width := 640, viewport_height := 480,
                              point_size := 1 },
          nextId := 1 }),
       [.makeCurrent 0, .makeCurrent 0, .rendererRender 7 0, .readDepth,
        .readColor]) ∧
    OffscreenRenderer.render { fbSupport := fun _ => true }
        { pyopengl_platform := none, egl_device_id := none }
        { _viewport_width := .int 640, _viewport_height := .int 480,
          _point_size := .float 1, _render_flags := defaultRenderFlags,
          _platform := some { kind := .pyglet, viewport_width := 640,
                              viewport_height := 480, id := 0 },
          _renderer := some { viewport_width := 640, viewport_height := 480,
                              point_size := 1 },
          nextId := 1 } 7 0 =
      (.ok (.delegated 7 2,
        { _viewport_width := .int 640, _viewport_height := .int 480,
          _point_size := .float 1, _render_flags := defaultRenderFlags,
          _platform := some { kind := .pyglet, viewport_width := 640,
                              viewport_height := 480, id := 0 },
          _renderer := some { viewport_width := 640, viewport_height := 480,
                              point_size := 1 },
          nextId := 1 }),
       [.makeCurrent 0, .makeCurrent 0, .rendererRender 7 2]) := by
  obtain ⟨hro1, -⟩ :=
    claim_C7_delegate_or_readback { fbSupport := fun _ => false }
      { pyopengl_platform := none, egl_device_id := none }
      { _viewport_width := .int 640, _viewport_height := .int 480,
        _point_size := .float 1, _render_flags := defaultRenderFlags,
        _platform := some { kind := .pyglet, viewport_width := 640,
                            viewport_height := 480, id := 0 },
        _renderer := some { viewport_width := 640, viewport_height := 480,
                            point_size := 1 },
        nextId := 1 }
      { kind := .pyglet, viewport_width := 640, viewport_height := 480,
        id := 0 }
      { viewport_width := 640, viewport_height := 480, point_size := 1 }
      7 1 rfl rfl ⟨rfl, rfl⟩
  obtain ⟨hro0, -⟩ :=
    claim_C7_delegate_or_readback { fbSupport := fun _ => false }
      { pyopengl_platform := none, egl_device_id := none }
      { _viewport_width := .int 640, _viewport_height := .int 480,
        _point_size := .float 1, _render_flags := defaultRenderFlags,
        _platform := some { kind := .pyglet, viewport_width := 640,
                            viewport_height := 480, id := 0 },
        _renderer := some { viewport_width := 640, viewport_height := 480,
                            point_size := 1 },
        nextId := 1 }
      { kind := .pyglet, viewport_width := 640, viewport_height := 480,
        id := 0 }
      { viewport_width := 640, viewport_height := 480, point_size := 1 }
      7 0 rfl rfl ⟨rfl, rfl⟩
  obtain ⟨-, hfb⟩ :=
    claim_C7_delegate_or_readback { fbSupport := fun _ => true }
      { pyopengl_platform := none, egl_device_id := none }
      { _viewport_width := .int 640, _viewport_height := .int 480,
        _point_size := .float 1, _render_flags := defaultRenderFlags,
        _platform := some { kind := .pyglet, viewport_width := 640,
                            viewport_height := 480, id := 0 },
        _renderer := some { viewport_width := 640, viewport_height := 480,
                            point_size := 1 },
        nextId := 1 }
      { kind := .pyglet, viewport_width := 640, viewport_height := 480,
        id := 0 }
      { viewport_width := 640, viewport_height := 480, point_size := 1 }
      7 0 rfl rfl ⟨rfl, rfl⟩
  exact ⟨(hro1 rfl).1 (by decide), (hro0 rfl).2 (by decide), hfb rfl⟩

/-- C4: when the stored viewport dimensions differ from the platform's
and the platform does not support dynamically-resizing framebuffers,
`render` tears down and recreates both the backend and the scene
renderer (the trace shows the releases and the new context creation,
and the new backend carries the fresh identity, different from the old
one whenever the old identity is not the about-to-be-allocated one)
before rendering proceeds, and afterwards the renderer's viewport
width, height and point size equal the wrapper's requested values; when
the platform supports framebuffers or the dimensions are unchanged, no
teardown occurs and the platform object is kept identical. -/
theorem claim_C4_resize_recreates (cfg : GLConfig)
    (env : OffscreenRenderer.Env) (s : OState) (p : Platform) (r : Renderer)
    (scene flags : Nat)
    (hp : s._platform = some p) (hr : s._renderer = some r) :
    ((p.viewport_height ≠ OffscreenRenderer.vhInt s ∨
        p.viewport_width ≠ OffscreenRenderer.vwInt s) →
      cfg.fbSupport p.kind = false →
      OffscreenRenderer.envOk env = true →
      ∃ out : OffscreenRenderer.RenderOut, ∃ s1 : OState,
        ∃ ev : List Event, ∃ p1 : Platform, ∃ r1 : Renderer,
        OffscreenRenderer.render cfg env s scene flags = (.ok (out, s1), ev) ∧
        s1._platform = some p1 ∧ s1._renderer = some r1 ∧
        p1.id = s.nextId ∧
        (p.id ≠ s.nextId → p1 ≠ p) ∧
        Event.rendererDelete ∈ ev ∧ Event.platformDeleteContext ∈ ev ∧
        Event.initContext s.nextId ∈ ev ∧
        r1.viewport_width = OffscreenRenderer.vwInt s ∧
        r1.viewport_height = OffscreenRenderer.vhInt s ∧
        r1.point_size = OffscreenRenderer.psRat s) ∧
    (((p.viewport_height = OffscreenRenderer.vhInt s ∧
         p.viewport_width = OffscreenRenderer.vwInt s) ∨
       cfg.fbSupport p.kind = true) →
      ∃ out : OffscreenRenderer.RenderOut, ∃ s1 : OState,
        ∃ ev : List Event, ∃ r1 : Renderer,
        OffscreenRenderer.render cfg env s scene flags = (.ok (out, s1), ev) ∧
        s1._platform = some p ∧
        Event.rendererDelete ∉ ev ∧ Event.platformDeleteContext ∉ ev ∧
        s1._renderer = some r1 ∧
        r1.viewport_width = OffscreenRenderer.vwInt s ∧
        r1.viewport_height = OffscreenRenderer.vhInt s ∧
        r1.point_size = OffscreenRenderer.psRat s) := by
  constructor
  · intro hdim hfb henv
    obtain ⟨k, hre⟩ := render_restart cfg env s p r scene flags hp hr hdim hfb henv
    rw [hre]
    dsimp only
    by_cases hfbk : cfg.fbSupport k = true
    · rw [if_pos hfbk]
      refine ⟨_, _, _, _, _, rfl, rfl, rfl, rfl, ?_, by simp, by simp, by simp,
        rfl, rfl, rfl⟩
      intro hne heq
      exact hne (by rw [← heq])
    · rw [if_neg hfbk]
      by_cases hdo :
          translateFlags s._render_flags flags &&& RenderFlags.DEPTH_ONLY ≠ 0
      · rw [if_pos hdo]
        refine ⟨_, _, _, _, _, rfl, rfl, rfl, rfl, ?_, by simp, by simp,
          by simp, rfl, rfl, rfl⟩
        intro hne heq
        exact hne (by rw [← heq])
      · rw [if_neg hdo]
        refine ⟨_, _, _, _, _, rfl, rfl, rfl, rfl, ?_, by simp, by simp,
          by simp, rfl, rfl, rfl⟩
        intro hne heq
        exact hne (by rw [← heq])
  · intro hkeep
    rw [render_noresize cfg env s p r scene flags hp hr hkeep]
    by_cases hfbk : cfg.fbSupport p.kind = true
    · rw [if_pos hfbk]
      exact ⟨_, _, _, _, rfl, hp, by simp, by simp, rfl, rfl, rfl, rfl⟩
    · rw [if_neg hfbk]
      by_cases hdo :
          translateFlags s._render_flags flags &&& RenderFlags.DEPTH_ONLY ≠ 0
      · rw [if_pos hdo]
        exact ⟨_, _, _, _, rfl, hp, by simp, by simp, rfl, rfl, rfl, rfl⟩
      · rw [if_neg hdo]
        exact ⟨_, _, _, _, rfl, hp, by simp, by simp, rfl, rfl, rfl, rfl⟩

/-- Witness for C4: a resize on a non-framebuffer backend recreates the
backend with a new identity, and a call with unchanged dimensions keeps
the platform object. -/
theorem claim_C4_witness :
    (∃ out : OffscreenRenderer.RenderOut, ∃ s1 : OState,
        ∃ ev : List Event, ∃ p1 : Platform, ∃ r1 : Renderer,
        OffscreenRenderer.render { fbSupport := fun _ => false }
            { pyopengl_platform := none, egl_device_id := none }
            { _viewport_width := .int 640, _viewport_height := .int 480,
              _point_size := .float 1, _render_flags := defaultRenderFlags,
              _platform := some { kind := .pyglet, viewport_width := 320,
                                  viewport_height := 240, id := 0 },
              _renderer := some { viewport_width := 320,
                                  viewport_height := 240, point_size := 1 },
              nextId := 1 } 7 0 = (.ok (out, s1), ev) ∧
        s1._platform = some p1 ∧ s1._renderer = some r1 ∧
        p1.id = 1 ∧
        ((0 : Nat) ≠ 1 → p1 ≠ { kind := .pyglet, viewport_width := 320,
                                viewport_height := 240, id := 0 }) ∧
        Event.rendererDelete ∈ ev ∧ Event.platformDeleteContext ∈ ev ∧
        Event.initContext 1 ∈ ev ∧
        r1.viewport_width = 640 ∧ r1.viewport_height = 480 ∧
        r1.point_size = 1) ∧
    (∃ out : OffscreenRenderer.RenderOut, ∃ s1 : OState,
        ∃ ev : List Event, ∃ r1 : Renderer,
        OffscreenRenderer.render { fbSupport := fun _ => false }
            { pyopengl_platform := none, egl_device_id := none }
            { _viewport_width := .int 640, _viewport_height := .int 480,
              _point_size := .float 1, _render_flags := defaultRenderFlags,
              _platform := some { kind := .pyglet, viewport_width := 640,
                                  viewport_height := 480, id := 0 },
              _renderer := some { viewport_width := 640,
                                  viewport_height := 480, point_size := 1 },
              nextId := 1 } 7 0 = (.ok (out, s1), ev) ∧
        s1._platform = some { kind := .pyglet, viewport_width := 640,
                              viewport_height := 480, id := 0 } ∧
        Event.rendererDelete ∉ ev ∧ Event.platformDeleteContext ∉ ev ∧
        s1._renderer = some r1 ∧
        r1.viewport_width = 640 ∧ r1.viewport_height = 480 ∧
        r1.point_size = 1) := by
  obtain ⟨hres, -⟩ :=
    claim_C4_resize_recreates { fbSupport := fun _ => false }
      { pyopengl_platform := none, egl_device_id := none }
      { _viewport_width := .int 640, _viewport_height := .int 480,
        _point_size := .float 1, _render_flags := defaultRenderFlags,
        _platform := some { kind := .pyglet, viewport_width := 320,
                            viewport_height := 240, id := 0 },
        _renderer := some { viewport_width := 320, viewport_height := 240,
                            point_size := 1 },
        nextId := 1 }
      { kind := .pyglet, viewport_width := 320, viewport_height := 240,
        id := 0 }
      { viewport_width := 320, viewport_height := 240, point_size := 1 }
      7 0 rfl rfl
  obtain ⟨-, hkeep⟩ :=
    claim_C4_resize_recreates { fbSupport := fun _ => false }
      { pyopengl_platform := none, egl_device_id := none }
      { _viewport_width := .int 640, _viewport_height := .int 480,
        _point_size := .float 1, _render_flags := defaultRenderFlags,
        _platform := some { kind := .pyglet, viewport_width := 640,
                            viewport_height := 480, id := 0 },
        _renderer := some { viewport_width := 640, viewport_height := 480,
                            point_size := 1 },
        nextId := 1 }
      { kind := .pyglet, viewport_width := 640, viewport_height := 480,
        id := 0 }
      { viewport_width := 640, viewport_height := 480, point_size := 1 }
      7 0 rfl rfl
  exact ⟨hres (by decide) rfl rfl, hkeep (Or.inl ⟨rfl, rfl⟩)⟩

/-- C10: in every reachable state of an `OffscreenRenderer` — after
construction and after every assignment through the public setters (and
through `render`, `delete` and the destructor, none of which touch
these attributes) — `viewport_width` and `viewport_height` are stored
coerced to `int` and `point_size` is stored coerced to `float`. -/
theorem claim_C10_type_invariant (s : OState)
    (h : OffscreenRenderer.Reachable s) : OffscreenRenderer.typeInv s := by
  induction h with
  | mkInit env vw vh ps rfArg kw isD n s ev hinit =>
    unfold OffscreenRenderer.init at hinit
    have hf := mkCreate_fields env _ s ev hinit
    refine ⟨?_, ?_, ?_⟩
    · rw [hf.1]
      rfl
    · rw [hf.2.1]
      rfl
    · rw [hf.2.2.1]
      rfl
  | setVW s v hs ih => exact ⟨rfl, ih.2.1, ih.2.2⟩
  | setVH s v hs ih => exact ⟨ih.1, rfl, ih.2.2⟩
  | setPS s v hs ih => exact ⟨ih.1, ih.2.1, rfl⟩
  | setRF s rf hs ih => exact ih
  | stepRender cfg env s scene flags out s1 ev hs hrender ih =>
    obtain ⟨h1, h2, h3⟩ := render_fields cfg env s scene flags out s1 ev hrender
    exact ⟨by rw [h1]; exact ih.1, by rw [h2]; exact ih.2.1,
      by rw [h3]; exact ih.2.2⟩
  | stepDelete s s1 ev hs hdel ih =>
    obtain ⟨h1, h2, h3, -⟩ := delete_fields s s1 ev hdel
    exact ⟨by rw [h1]; exact ih.1, by rw [h2]; exact ih.2.1,
      by rw [h3]; exact ih.2.2⟩
  | stepDtor s s1 hs hdtor ih =>
    obtain ⟨h1, h2, h3⟩ := dunder_del_fields s s1 hdtor
    exact ⟨by rw [h1]; exact ih.1, by rw [h2]; exact ih.2.1,
      by rw [h3]; exact ih.2.2⟩

/-- Witness for C10 at the state produced by a concrete construction. -/
theorem claim_C10_witness :
    OffscreenRenderer.typeInv
      { _viewport_width := .int 640, _viewport_height := .int 480,
        _point_size := .float 1, _render_flags := defaultRenderFlags,
        _platform := some { kind := .pyglet, viewport_width := 640,
                            viewport_height := 480, id := 0 },
        _renderer := some { viewport_width := 640, viewport_height := 480,
                            point_size := 1 },
        nextId := 1 } :=
  claim_C10_type_invariant _
    (OffscreenRenderer.Reachable.mkInit
      { pyopengl_platform := none, egl_device_id := none }
      (.int 640) (.int 480) (.float 1) none {} false 0 _ _ rfl)

lemma rotationy_mul (a b : ℝ) :
    rotationy a * rotationy b = rotationy (a + b) := by
  have h : (a + b) / 180 * Real.pi =
      a / 180 * Real.pi + b / 180 * Real.pi := by ring
  ext i j
  fin_cases i <;> fin_cases j <;>
    simp [rotationy, Matrix.mul_apply, Fin.sum_univ_succ, h, Real.cos_add,
      Real.sin_add] <;>
    first
    | rfl
    | ring

lemma rotationy_zero : rotationy 0 = 1 := by
  ext i j
  fin_cases i <;> fin_cases j <;>
    simp [rotationy, Matrix.one_apply] <;>
    try rfl

lemma rotationy_pow (a : ℝ) (n : ℕ) :
    rotationy a ^ n = rotationy (n * a) := by
  induction n with
  | zero => simp [rotationy_zero]
  | succ k ih =>
    rw [pow_succ, ih, rotationy_mul]
    push_cast
    ring

lemma rotationy_360 : rotationy 360 = 1 := by
  have h : (360 : ℝ) / 180 * Real.pi = 2 * Real.pi := by ring
  ext i j
  fin_cases i <;> fin_cases j <;>
    simp [rotationy, h, Real.cos_two_pi, Real.sin_two_pi, Matrix.one_apply,
      Matrix.vecHead, Matrix.vecTail]

lemma rotmat3_eq (a : ℝ) :
    rotmat3 a =
      !![Real.cos (a / 180 * Real.pi), 0, Real.sin (a / 180 * Real.pi);
         0, 1, 0;
         -Real.sin (a / 180 * Real.pi), 0, Real.cos (a / 180 * Real.pi)] := by
  ext i j
  fin_cases i <;> fin_cases j <;>
    simp [rotmat3, rotationy, Matrix.submatrix_apply, Fin.castLE]

lemma rotmat3_mul (a b : ℝ) : rotmat3 a * rotmat3 b = rotmat3 (a + b) := by
  have h : (a + b) / 180 * Real.pi =
      a / 180 * Real.pi + b / 180 * Real.pi := by ring
  rw [rotmat3_eq, rotmat3_eq, rotmat3_eq]
  ext i j
  fin_cases i <;> fin_cases j <;>
    simp [Matrix.mul_apply, Fin.sum_univ_succ, h, Real.cos_add,
      Real.sin_add] <;>
    first
    | rfl
    | ring

lemma rotmat3_zero : rotmat3 0 = 1 := by
  rw [rotmat3_eq]
  ext i j
  fin_cases i <;> fin_cases j <;> simp [Matrix.one_apply] <;> try rfl

lemma rotmat3_pow (a : ℝ) (n : ℕ) : rotmat3 a ^ n = rotmat3 (n * a) := by
  induction n with
  | zero => simp [rotmat3_zero]
  | succ k ih =>
    rw [pow_succ, ih, rotmat3_mul]
    push_cast
    ring

lemma rotmat3_360 : rotmat3 360 = 1 := by
  have h : (360 : ℝ) / 180 * Real.pi = 2 * Real.pi := by ring
  rw [rotmat3_eq]
  ext i j
  fin_cases i <;> fin_cases j <;>
    simp [h, Real.cos_two_pi, Real.sin_two_pi, Matrix.one_apply,
      Matrix.vecHead, Matrix.vecTail]

lemma rotateStep_iterate (a : ℝ) (n : ℕ) (v : Fin 3 → ℝ) :
    (rotateStep a)^[n] v = Matrix.vecMul v ((rotmat3 a).transpose ^ n) := by
  induction n with
  | zero => simp
  | succ k ih =>
    rw [Function.iterate_succ_apply', ih]
    unfold rotateStep
    rw [Matrix.vecMul_vecMul, ← pow_succ]

/-- C6: applying the per-view turntable rotation of `360/N` degrees
about the vertical axis N consecutive times returns every vertex
position to its original value, and equivalently the N-th power of the
`rotationy(360/N)` matrix is the identity (numpy floating point
idealised as exact reals). -/
theorem claim_C6_turntable_identity (N : ℕ) (hN : 0 < N) :
    rotationy (360 / N) ^ N = 1 ∧
      ∀ v : Fin 3 → ℝ, (rotateStep (360 / N))^[N] v = v := by
  have hNe : (N : ℝ) ≠ 0 := Nat.cast_ne_zero.mpr hN.ne'
  constructor
  · rw [rotationy_pow, show (N : ℝ) * (360 / N) = 360 by field_simp,
      rotationy_360]
  · intro v
    rw [rotateStep_iterate, ← Matrix.transpose_pow, rotmat3_pow,
      show (N : ℝ) * (360 / N) = 360 by field_simp, rotmat3_360,
      Matrix.transpose_one, Matrix.vecMul_one]

/-- Witness for C6 at N = 4. -/
theorem claim_C6_witness :
    0 < 4 ∧
      (rotationy (360 / (4 : ℕ)) ^ 4 = 1 ∧
        ∀ v : Fin 3 → ℝ, (rotateStep (360 / (4 : ℕ)))^[4] v = v) :=
  ⟨by decide, claim_C6_turntable_identity 4 (by decide)⟩
